import Mathlib

/-!
# Verification of the node-curl-scraper request-orchestration core

Shallow embedding of the TypeScript sources (src/cloudflare-scraper.ts,
src/scraper.ts, src/curl-impersonate.ts) into Lean 4, together with
theorems settling the specification claims about the challenge classifier,
the retry loop, proxy rotation, session rotation/persistence and the
HTML/script-data extraction utilities.

Conventions used throughout the embedding:
* JavaScript objects used as string maps (Record<string, string>) become
  insertion-ordered association lists with last-write-wins assignment
  (recordSet) and first-match lookup (recordGet); since recordSet
  replaces an existing binding, keys stay unique.
* JavaScript undefined on optional fields becomes Option.
* Date.now() and Math.random() are externalized: functions take the
  current clock value and the drawn random index as explicit arguments.
* Mutable shared references (a session pointing at a proxy object owned by
  the pool) become indices into the pool list, so an update through the
  session reference is an update of the pool entry.
-/

namespace NodeCurlScraper

/-- ASCII variant of JavaScript toLowerCase (all strings involved in the
classifier checks are ASCII).  Implemented over the character list so that
concrete instances reduce inside the kernel. -/
def jsToLower (s : String) : String := String.mk (s.toList.map Char.toLower)

/-- Model of JavaScript String.prototype.trim (whitespace stripped from
both ends). -/
def jsTrim (s : String) : String :=
  String.mk (((s.toList.dropWhile Char.isWhitespace).reverse.dropWhile
    Char.isWhitespace).reverse)

/-- Model of JavaScript String.prototype.startsWith. -/
def jsStartsWith (s pat : String) : Bool := pat.toList.isPrefixOf s.toList

/-- Character-list worker for jsSplitOn: cut the input at every
non-overlapping occurrence of the (nonempty) separator, scanning left to
right; `acc` holds the current chunk reversed.  The fuel argument makes the
recursion structural (so concrete instances reduce inside the kernel);
every step consumes at least one character and one unit of fuel, so with
initial fuel equal to the input length the fuel-out case is unreachable. -/
def splitOnAuxL (sep : List Char) : Nat → List Char → List Char → List (List Char)
  | _, [], acc => [acc.reverse]
  | 0, _ :: _, acc => [acc.reverse]
  | fuel + 1, c :: rest, acc =>
      if sep.isPrefixOf (c :: rest) then
        acc.reverse :: splitOnAuxL sep fuel (List.drop (sep.length - 1) rest) []
      else
        splitOnAuxL sep fuel rest (c :: acc)

/-- Model of JavaScript String.prototype.split with a nonempty string
separator. -/
def jsSplitOn (s sep : String) : List String :=
  (splitOnAuxL sep.toList s.toList.length s.toList []).map String.mk

/-- Model of Array.prototype.join over strings. -/
def joinWith (sep : String) (l : List String) : String :=
  String.mk (List.intercalate sep.toList (l.map String.toList))

/-- Value of `parseInt(s, 10)` on a pure digit run (the only inputs the
decoder feeds it, thanks to the status-line pattern). -/
def digitsToNat (s : String) : Nat :=
  s.toList.foldl (fun acc c => acc * 10 + (c.toNat - 48)) 0

/-- Model of JavaScript String.prototype.includes: the pattern occurs as a
contiguous substring of the subject. -/
def strContains (s pat : String) : Bool :=
  (List.range (s.toList.length + 1)).any (fun i => pat.toList.isPrefixOf (s.toList.drop i))

/-- Model of a JavaScript object property read for a string-keyed record. -/
def recordGet (m : List (String × String)) (k : String) : Option String :=
  (m.find? (fun kv => kv.1 == k)).map (·.2)

/-- Model of a JavaScript object property write: replace the existing
binding in place, or append a fresh one. -/
def recordSet (m : List (String × String)) (k v : String) : List (String × String) :=
  if (m.find? (fun kv => kv.1 == k)).isSome then
    m.map (fun kv => if kv.1 == k then (kv.1, v) else kv)
  else
    m ++ [(k, v)]

/-- In-place update of the list element at index `j` (model of mutating the
object a JS reference points at, e.g. a pool-owned proxy). -/
def listUpdateAt {α : Type} : List α → Nat → (α → α) → List α
  | [], _, _ => []
  | x :: xs, 0, f => f x :: xs
  | x :: xs, j + 1, f => x :: listUpdateAt xs j f

/-- Structure HttpResponse (src/types.ts): the decoded result of one
transfer. -/
structure HttpResponse where
  statusCode : Nat
  statusText : String
  headers : List (String × String)
  body : String
  url : String
  responseTime : Nat
  size : Nat
  deriving Repr, DecidableEq

/-- Method CloudflareScraper.isCloudflareChallenge (src/cloudflare-scraper.ts
lines 346-350): challenge detection is explicitly disabled in this class —
the body is literally `return false`. -/
def isCloudflareChallengeCF (_response : HttpResponse) : Bool := false

/-- The six Cloudflare header indicators of CurlScraper.isCloudflareChallenge
(src/scraper.ts lines 238-245). -/
def cloudflareIndicators : List String :=
  ["cloudflare", "cf-ray", "cf-cache-status", "cf-request-id",
   "challenge-platform", "cf-browser-verification"]

/-- Method CurlScraper.isCloudflareChallenge (src/scraper.ts lines 237-258):
status 403 or 503, or a lower-cased header name containing one of the six
indicators, or the lower-cased body containing one of three fixed phrases. -/
def isCloudflareChallengeCurl (response : HttpResponse) : Bool :=
  let headers := response.headers.map (fun kv => jsToLower kv.1)
  let body := jsToLower response.body
  response.statusCode == 403 ||
  response.statusCode == 503 ||
  headers.any (fun h => cloudflareIndicators.any (fun indicator => strContains h indicator)) ||
  strContains body "cloudflare" ||
  strContains body "checking your browser" ||
  strContains body "ddos protection"

/-- The challenge-detection predicate exactly as the specification words it
(spec section 4.4 / claim C1): status 403, 429 or 503, or a header name
containing one of the six indicators, or the body containing one of five
phrases.  Stated from the spec, for comparison against the source
classifiers. -/
def specChallengePredicate (response : HttpResponse) : Bool :=
  let headers := response.headers.map (fun kv => jsToLower kv.1)
  let body := jsToLower response.body
  response.statusCode == 403 ||
  response.statusCode == 429 ||
  response.statusCode == 503 ||
  headers.any (fun h => cloudflareIndicators.any (fun indicator => strContains h indicator)) ||
  strContains body "cloudflare" ||
  strContains body "checking your browser" ||
  strContains body "ddos protection" ||
  strContains body "please wait while we verify" ||
  strContains body "challenge-form"

/-- The proxy-failure message keywords of CloudflareScraper.isProxyError
(src/cloudflare-scraper.ts lines 370-378). -/
def proxyErrorKeywords : List String :=
  ["connection refused", "connection timeout", "dns resolution failed",
   "authentication failed", "proxy authentication", "socks", "proxy error"]

/-- Method CloudflareScraper.isProxyError (src/cloudflare-scraper.ts lines
369-382): the lower-cased error message contains one of the seven keywords. -/
def isProxyError (message : String) : Bool :=
  proxyErrorKeywords.any (fun keyword => strContains (jsToLower message) keyword)

/-- Method CurlScraper.isJsonResponse (src/scraper.ts lines 389-394): the
content-type contains application/json, or the trimmed body starts with an
opening brace or bracket. -/
def isJsonResponse (response : HttpResponse) : Bool :=
  let contentType := (recordGet response.headers "content-type").getD ""
  strContains contentType "application/json" ||
  jsStartsWith (jsTrim response.body) "\x7b" ||
  jsStartsWith (jsTrim response.body) "["

/-- Method CloudflareScraper.isHtmlResponse (src/cloudflare-scraper.ts
lines 635-640). -/
def isHtmlResponse (response : HttpResponse) : Bool :=
  let contentType :=
    ((recordGet response.headers "content-type").getD
      ((recordGet response.headers "Content-Type").getD ""))
  strContains contentType "text/html" ||
  strContains (jsToLower response.body) "<!doctype html" ||
  strContains (jsToLower response.body) "<html"

/-- Structure BrowserFingerprint (src/types.ts): only the fields the
orchestration core ever reads (name, userAgent); the remaining static
descriptor fields (headers, TLS parameters) are never consulted by the
modeled code. -/
structure Fingerprint where
  name : String
  userAgent : String
  deriving Repr, DecidableEq

/-- Structure ProxyConfig (src/cloudflare-scraper.ts lines 80-88). -/
structure ProxyConfig where
  host : String
  port : Nat
  protocol : String
  username : Option String := none
  password : Option String := none
  failCount : Option Nat := none
  lastUsed : Option Nat := none
  deriving Repr, DecidableEq, Inhabited

/-- Structure ScrapingSession (src/cloudflare-scraper.ts lines 99-109).
The proxy field is a JS reference to a pool-owned object; it is modeled as
an index into the pool list. -/
structure Session where
  id : String
  cookies : List (String × String)
  userAgent : String
  fingerprint : Fingerprint
  proxy : Option Nat := none
  createdAt : Nat
  lastUsed : Nat
  requestCount : Nat
  errorCount : Nat
  deriving Repr, DecidableEq

/-- Proxy rotation strategy (src/cloudflare-scraper.ts line 96). -/
inductive Strategy where
  | roundRobin
  | random
  | failover
  deriving Repr, DecidableEq

/-- The slice of the CloudflareScraper configuration the request loop reads
(src/cloudflare-scraper.ts lines 115-155).  Option Nat fields model JS
`number | undefined`. -/
structure OrchestratorConfig where
  sessionEnabled : Bool := true
  sessionMaxAge : Option Nat := some (30 * 60 * 1000)
  rotateOnError : Bool := true
  maxRetries : Option Nat := some 3
  autoRetry : Bool := true
  proxyEnabled : Bool := false
  autoSwitch : Bool := true
  maxFailures : Option Nat := some 3
  strategy : Strategy := .roundRobin
  deriving Repr, DecidableEq

/-- JS `this.config.session.maxRetries || 3` (src/cloudflare-scraper.ts
lines 228 and 316): undefined and the falsy value 0 both fall back to 3. -/
def effMaxRetries (cfg : OrchestratorConfig) : Nat :=
  match cfg.maxRetries with
  | none => 3
  | some 0 => 3
  | some n => n

/-- JS `this.config.proxyRotation.maxFailures || 3` (src/cloudflare-scraper.ts
line 425): undefined and the falsy value 0 both fall back to 3. -/
def effMaxFailures (cfg : OrchestratorConfig) : Nat :=
  match cfg.maxFailures with
  | none => 3
  | some 0 => 3
  | some n => n

/-- The filter predicate of getNextProxy (src/cloudflare-scraper.ts line
425): `!p.failCount || p.failCount < (maxFailures || 3)`; an undefined
failCount is falsy (kept) and `undefined < n` is false. -/
def proxyEligible (cfg : OrchestratorConfig) (p : ProxyConfig) : Bool :=
  match p.failCount with
  | none => true
  | some c => c == 0 || c < effMaxFailures cfg

/-- JS `selectedProxy.lastUsed = Date.now()` applied to the pool entry at
index `j` (the selected object is pool-owned). -/
def poolTouch (pool : List ProxyConfig) (j : Nat) (now : Nat) : List ProxyConfig :=
  listUpdateAt pool j (fun p => { p with lastUsed := some now })

/-- The availableProxies filter of getNextProxy (src/cloudflare-scraper.ts
lines 424-426), as the list of eligible pool indices. -/
def availableProxyIdx (cfg : OrchestratorConfig) (pool : List ProxyConfig) :
    List Nat :=
  (List.range pool.length).filter (fun i => proxyEligible cfg (pool.getD i default))

/-- Index (into the eligible list) chosen by the strategy switch
(src/cloudflare-scraper.ts lines 434-447). -/
def selectProxyIdx (cfg : OrchestratorConfig) (avail : List Nat)
    (proxyIndex : Nat) (r : Nat) : Nat :=
  match cfg.strategy with
  | .roundRobin => avail.getD (proxyIndex % avail.length) 0
  | .random => avail.getD (r % avail.length) 0
  | .failover => avail.getD 0 0

/-- Method CloudflareScraper.getNextProxy (src/cloudflare-scraper.ts lines
419-451).  Returns the selected pool index (the JS code returns the proxy
object itself), the updated round-robin cursor, and the pool with the
selected proxy's lastUsed stamped.  `r` is the `Math.floor(Math.random()*n)`
draw for the random strategy (always below `n` in JS; reduced mod `n` here). -/
def getNextProxy (cfg : OrchestratorConfig) (pool : List ProxyConfig)
    (proxyIndex : Nat) (r : Nat) (now : Nat) :
    Option Nat × Nat × List ProxyConfig :=
  if !cfg.proxyEnabled || pool.length == 0 then
    (none, proxyIndex, pool)
  else if (availableProxyIdx cfg pool).length == 0 then
    (none, proxyIndex, pool)
  else
    let j := selectProxyIdx cfg (availableProxyIdx cfg pool) proxyIndex r
    let proxyIndex' := match cfg.strategy with
      | .roundRobin => proxyIndex + 1
      | _ => proxyIndex
    (some j, proxyIndex', poolTouch pool j now)

/-- Method CloudflareScraper.markProxyFailed (src/cloudflare-scraper.ts
lines 456-460): `proxy.failCount = (proxy.failCount || 0) + 1` on the
pool-owned object referenced by the session; a missing reference is a
no-op. -/
def markProxyFailed (pool : List ProxyConfig) (proxyRef : Option Nat) :
    List ProxyConfig :=
  match proxyRef with
  | none => pool
  | some j =>
      listUpdateAt pool j (fun p => { p with failCount := some (p.failCount.getD 0 + 1) })

/-- Method CloudflareScraper.rotateSession (src/cloudflare-scraper.ts lines
465-484): assign `availableBrowsers[k]` as the new fingerprint (with its
user agent) and reset errorCount; the session id, cookies and proxy are
untouched.  `k` is the `Math.floor(Math.random()*length)` draw (always in
range in JS when the catalog is nonempty; an out-of-range `k` leaves the
session unchanged, a state the JS code cannot reach). -/
def rotateSession (catalog : List Fingerprint) (k : Nat) (session : Session) :
    Session :=
  match catalog.get? k with
  | some newFingerprint =>
      { session with
        fingerprint := newFingerprint
        userAgent := newFingerprint.userAgent
        errorCount := 0 }
  | none => session

/-- Splitting one Set-Cookie header value into session-cookie updates
(CloudflareScraper.updateSessionCookies, src/cloudflare-scraper.ts lines
495-506): split on a comma-space, take each piece up to the first
semicolon, split that on the equals sign, and assign the trimmed name to
the trimmed value when both parts are nonempty. -/
def applyCookieHeader (cookies : List (String × String)) (header : String) :
    List (String × String) :=
  (jsSplitOn header ", ").foldl
    (fun acc cookie =>
      let nameValue := (jsSplitOn cookie ";").getD 0 ""
      let parts := jsSplitOn nameValue "="
      let name := parts.getD 0 ""
      let value := parts.getD 1 ""
      if name != "" && value != "" then recordSet acc (jsTrim name) (jsTrim value)
      else acc)
    cookies

/-- Method CloudflareScraper.updateSessionCookies (src/cloudflare-scraper.ts
lines 489-511): merge the set-cookie (or Set-Cookie) response header into
the session cookie map; an absent header means no change.  The decoder
stores headers as single strings, so the Array.isArray branch collapses to
the one-element case. -/
def updateSessionCookies (session : Session) (response : HttpResponse) :
    Session :=
  match recordGet response.headers "set-cookie" with
  | some h => { session with cookies := applyCookieHeader session.cookies h }
  | none =>
      match recordGet response.headers "Set-Cookie" with
      | some h => { session with cookies := applyCookieHeader session.cookies h }
      | none => session

/-- The `sessions: Map<string, ScrapingSession>` store, keyed by session id. -/
abbrev SessionStore := List Session

/-- Model of `this.sessions.get(id)` and `this.sessions.has(id)`. -/
def storeGet (store : SessionStore) (id : String) : Option Session :=
  List.find? (fun s => s.id == id) store

/-- Model of `this.sessions.set(session.id, session)`: replace the entry
with the same id, or insert. -/
def storeSet (store : SessionStore) (session : Session) : SessionStore :=
  if (storeGet store session.id).isSome then
    List.map (fun s => if s.id == session.id then session else s) store
  else
    store ++ [session]

/-- Model of `this.sessions.delete(id)`. -/
def storeDelete (store : SessionStore) (id : String) : SessionStore :=
  List.filter (fun s => !(s.id == id)) store

/-- The expiry test of CloudflareScraper.getSession (src/cloudflare-scraper.ts
line 201): `this.config.session.maxAge && (Date.now() - session.createdAt) >
maxAge` — an unset or zero (falsy) maxAge never expires. -/
def sessionExpired (maxAge : Option Nat) (now : Nat) (session : Session) : Bool :=
  match maxAge with
  | none => false
  | some m => if m == 0 then false else now - session.createdAt > m

/-- Method CloudflareScraper.createSession (src/cloudflare-scraper.ts lines
165-187) with the generated UUID and the randomly selected fingerprint
externalized as arguments: builds a zero-counter session stamped `now` and
inserts it into the store. -/
def createSession (store : SessionStore) (uuid : String) (fp : Fingerprint)
    (now : Nat) : Session × SessionStore :=
  let session : Session :=
    { id := uuid
      cookies := []
      userAgent := fp.userAgent
      fingerprint := fp
      proxy := none
      createdAt := now
      lastUsed := now
      requestCount := 0
      errorCount := 0 }
  (session, storeSet store session)

/-- Method CloudflareScraper.getSession (src/cloudflare-scraper.ts lines
192-210): create when sessions are disabled or forceNew; otherwise look the
id up, recreating on a miss or on expiry (deleting the expired entry). -/
def getSession (cfg : OrchestratorConfig) (store : SessionStore) (now : Nat)
    (uuid : String) (fp : Fingerprint) (sessionId : Option String)
    (forceNew : Bool) : Session × SessionStore :=
  if !cfg.sessionEnabled || forceNew then
    createSession store uuid fp now
  else
    match sessionId with
    | some sid =>
        match storeGet store sid with
        | some session =>
            if sessionExpired cfg.sessionMaxAge now session then
              createSession (storeDelete store sid) uuid fp now
            else
              (session, store)
        | none => createSession store uuid fp now
    | none => createSession store uuid fp now

/-- The serialized session state built by CloudflareScraper.getSessionState
(src/cloudflare-scraper.ts lines 572-581): a flat copy of the session
fields — note that the proxy is NOT serialized. -/
structure SessionState where
  id : String
  cookies : List (String × String)
  userAgent : String
  fingerprint : Fingerprint
  createdAt : Nat
  lastUsed : Nat
  requestCount : Nat
  errorCount : Nat
  deriving Repr, DecidableEq

/-- The field-copy step of getSessionState applied to a resolved session. -/
def serializeSession (session : Session) : SessionState :=
  { id := session.id
    cookies := session.cookies
    userAgent := session.userAgent
    fingerprint := session.fingerprint
    createdAt := session.createdAt
    lastUsed := session.lastUsed
    requestCount := session.requestCount
    errorCount := session.errorCount }

/-- Method CloudflareScraper.getSessionState (src/cloudflare-scraper.ts
lines 570-582): resolve the session through getSession and copy its
fields. -/
def getSessionState (cfg : OrchestratorConfig) (store : SessionStore)
    (now : Nat) (uuid : String) (fp : Fingerprint) (sessionId : Option String) :
    SessionState × SessionStore :=
  let resolved := getSession cfg store now uuid fp sessionId false
  (serializeSession resolved.1, resolved.2)

/-- Method CloudflareScraper.restoreSessionState (src/cloudflare-scraper.ts
lines 587-614): if no session with the state's id exists, create one from
the state (a state produced by getSessionState carries no proxy, so the
restored session's proxy is none); otherwise update the existing session's
cookies, user agent, fingerprint, lastUsed, requestCount and errorCount in
place — createdAt and proxy keep their existing values. -/
def restoreSessionState (store : SessionStore) (state : SessionState) :
    SessionStore :=
  match storeGet store state.id with
  | none =>
      storeSet store
        { id := state.id
          cookies := state.cookies
          userAgent := state.userAgent
          fingerprint := state.fingerprint
          proxy := none
          createdAt := state.createdAt
          lastUsed := state.lastUsed
          requestCount := state.requestCount
          errorCount := state.errorCount }
  | some session =>
      storeSet store
        { session with
          cookies := state.cookies
          userAgent := state.userAgent
          fingerprint := state.fingerprint
          lastUsed := state.lastUsed
          requestCount := state.requestCount
          errorCount := state.errorCount }

end NodeCurlScraper

namespace NodeCurlScraper

/-- Outcome of one Transport invocation (`this.curlImpersonate.request`,
an external collaborator): either a decoded response or a thrown error.
`isCF` models `error instanceof CloudflareError`; `dur` is the wall-clock
time the invocation takes (so recorded timestamps advance). -/
inductive TransportOutcome where
  | ok (resp : HttpResponse) (dur : Nat)
  | err (msg : String) (isCF : Bool) (dur : Nat)
  deriving Repr, DecidableEq

/-- One element of allErrors (src/cloudflare-scraper.ts lines 285-289):
attempt number, the error's message, and the timestamp. -/
structure AttemptRecord where
  attempt : Nat
  message : String
  timestamp : Nat
  deriving Repr, DecidableEq

/-- Error codes of ProxyError (src/cloudflare-scraper.ts line 52). -/
inductive ProxyErrorCode where
  | refused
  | timeout
  | authFailed
  | dnsError
  | connectionError
  deriving Repr, DecidableEq

/-- Method CloudflareScraper.handleProxyError (src/cloudflare-scraper.ts
lines 387-407): classify the lower-cased message into a ProxyError code. -/
def handleProxyError (message : String) : ProxyErrorCode :=
  let m := jsToLower message
  if strContains m "connection refused" then .refused
  else if strContains m "timeout" then .timeout
  else if strContains m "authentication" then .authFailed
  else if strContains m "dns" then .dnsError
  else .connectionError

/-- How a `request()` call ends: a returned response, a thrown ProxyError
(only when autoSwitch is off), or the terminal MaxRetriesExceededError
carrying the attempt count and every recorded attempt (the formatted
message string interpolates the same data plus ISO timestamps). -/
inductive ReqOutcome where
  | success (resp : HttpResponse)
  | proxyFailure (code : ProxyErrorCode)
  | maxRetriesExceeded (attempts : Nat) (allErrors : List AttemptRecord)
  deriving Repr, DecidableEq

/-- The mutable state of one `request()` call: the resolved session, the
shared proxy pool and round-robin cursor, the clock, and the per-call
attempts/allErrors accumulators.  `transportCalls` counts Transport
invocations and `delays` records each backoff performed, for the theorems. -/
structure ReqState where
  session : Session
  pool : List ProxyConfig
  proxyIndex : Nat
  now : Nat
  transportCalls : Nat
  delays : List Nat
  attempts : Nat
  allErrors : List AttemptRecord
  deriving Repr, DecidableEq

/-- What the catch block decides: loop again (`continue`), throw out of
`request()`, or `break` to the terminal-error construction. -/
inductive CatchResult where
  | contLoop (st : ReqState)
  | thrownOut (out : ReqOutcome) (st : ReqState)
  | breakOut (st : ReqState)
  deriving Repr, DecidableEq

/-- State carried by a CatchResult, whichever constructor. -/
def CatchResult.state : CatchResult → ReqState
  | .contLoop st => st
  | .thrownOut _ st => st
  | .breakOut st => st

/-- The message of the CloudflareError thrown by the stubbed
handleCloudflareChallenge (src/cloudflare-scraper.ts lines 358-363). -/
def challengeDisabledMessage : String :=
  "Cloudflare challenge detection disabled - implement when we have real examples"

/-- Top of each loop iteration (src/cloudflare-scraper.ts lines 229-234):
`attempts++`, `session.lastUsed = Date.now()`, `session.requestCount++`. -/
def beginAttempt (st : ReqState) : ReqState :=
  { st with
    attempts := st.attempts + 1
    session := { st.session with
      lastUsed := st.now
      requestCount := st.session.requestCount + 1 } }

/-- Proxy attachment step (src/cloudflare-scraper.ts lines 237-244): when
rotation is enabled, pull the next proxy; on a hit attach it to the session
(and to the outgoing options, which the Transport oracle absorbs). -/
def proxyStep (cfg : OrchestratorConfig) (draw : Nat) (st : ReqState) : ReqState :=
  if cfg.proxyEnabled then
    match getNextProxy cfg st.pool st.proxyIndex draw st.now with
    | (some j, proxyIndex', pool') =>
        { st with
          pool := pool'
          proxyIndex := proxyIndex'
          session := { st.session with proxy := some j } }
    | (none, proxyIndex', pool') =>
        { st with pool := pool', proxyIndex := proxyIndex' }
  else st

/-- The catch block of CloudflareScraper.request (src/cloudflare-scraper.ts
lines 280-322): bump errorCount, record the attempt, then (1) a message
matching the proxy keywords with autoSwitch on marks the session's proxy
failed and rotates, continuing; with autoSwitch off the classified
ProxyError is thrown; (2) a CloudflareError with rotateOnError on rotates
and continues; (3) otherwise, while attempts remain, sleep `1000 * attempts`
ms and continue, else break.  `rotDraw` is the random fingerprint index
consumed by a rotation. -/
def handleCatch (cfg : OrchestratorConfig) (catalog : List Fingerprint)
    (rotDraw : Nat) (msg : String) (isCF : Bool) (st : ReqState) : CatchResult :=
  let st := { st with
    session := { st.session with errorCount := st.session.errorCount + 1 }
    allErrors := st.allErrors ++ [⟨st.attempts, msg, st.now⟩] }
  if isProxyError msg then
    if cfg.autoSwitch then
      let st := { st with pool := markProxyFailed st.pool st.session.proxy }
      .contLoop { st with session := rotateSession catalog rotDraw st.session }
    else
      .thrownOut (.proxyFailure (handleProxyError msg)) st
  else if isCF && cfg.rotateOnError then
    .contLoop { st with session := rotateSession catalog rotDraw st.session }
  else if st.attempts < effMaxRetries cfg then
    .contLoop { st with
      delays := st.delays ++ [1000 * st.attempts]
      now := st.now + 1000 * st.attempts }
  else
    .breakOut st

/-- One try-block body plus catch (src/cloudflare-scraper.ts lines 231-322),
after the usage/proxy bookkeeping: invoke the Transport, then either return
the response (a detected challenge would throw a CloudflareError into the
catch of the same iteration, but detection is disabled) or run the catch
block on the thrown error. -/
def attemptStep (cfg : OrchestratorConfig) (catalog : List Fingerprint)
    (transport : Nat → TransportOutcome) (rotDraw : Nat) (st : ReqState) :
    CatchResult :=
  let outcome := transport st.transportCalls
  let st := { st with transportCalls := st.transportCalls + 1 }
  match outcome with
  | .ok resp dur =>
      let st := { st with now := st.now + dur }
      if isCloudflareChallengeCF resp then
        handleCatch cfg catalog rotDraw challengeDisabledMessage true st
      else
        .thrownOut (.success resp)
          { st with session := updateSessionCookies st.session resp }
  | .err msg isCF dur =>
      handleCatch cfg catalog rotDraw msg isCF { st with now := st.now + dur }

/-- The `while (attempts < maxRetries)` loop of CloudflareScraper.request
(src/cloudflare-scraper.ts lines 228-323), with `fuel = maxRetries -
attempts` (structural recursion on the number of remaining iterations;
`request` enters with `fuel = effMaxRetries cfg`, `attempts = 0`, and every
path preserves that correspondence).  `transport n` is the outcome of the
n-th Transport invocation; `proxyDraw`/`rotDraw` index the random draws by
attempt number.  Exhaustion (fuel out, or `break`) produces the
MaxRetriesExceededError built after the loop (lines 326-340). -/
def requestLoop (cfg : OrchestratorConfig) (catalog : List Fingerprint)
    (transport : Nat → TransportOutcome) (proxyDraw rotDraw : Nat → Nat) :
    Nat → ReqState → ReqOutcome × ReqState
  | 0, st => (.maxRetriesExceeded st.attempts st.allErrors, st)
  | fuel + 1, st =>
    match attemptStep cfg catalog transport (rotDraw (st.attempts + 1))
        (proxyStep cfg (proxyDraw (st.attempts + 1)) (beginAttempt st)) with
    | .contLoop st' => requestLoop cfg catalog transport proxyDraw rotDraw fuel st'
    | .thrownOut out st' => (out, st')
    | .breakOut st' => (.maxRetriesExceeded st'.attempts st'.allErrors, st')

/-- Method CloudflareScraper.request (src/cloudflare-scraper.ts lines
215-341): resolve the session through getSession, then run the retry loop
with at most `effMaxRetries cfg` iterations.  `uuid`/`freshFp` feed a
session creation if the lookup misses. -/
def request (cfg : OrchestratorConfig) (catalog : List Fingerprint)
    (transport : Nat → TransportOutcome) (proxyDraw rotDraw : Nat → Nat)
    (store : SessionStore) (pool : List ProxyConfig) (proxyIndex : Nat)
    (now : Nat) (uuid : String) (freshFp : Fingerprint)
    (sessionId : Option String) : ReqOutcome × ReqState :=
  let resolved := getSession cfg store now uuid freshFp sessionId false
  requestLoop cfg catalog transport proxyDraw rotDraw (effMaxRetries cfg)
    { session := resolved.1
      pool := pool
      proxyIndex := proxyIndex
      now := now
      transportCalls := 0
      delays := []
      attempts := 0
      allErrors := [] }

end NodeCurlScraper

namespace NodeCurlScraper

/-- A DOM element as the extraction code reads it (node-html-parser is an
external collaborator; only tagName, text and innerHTML are consulted by
getScriptData). -/
structure DomNode where
  tagName : String
  text : String
  innerHTML : String
  deriving Repr, DecidableEq

/-- JS `scriptId || '__NEXT_DATA__'` (src/cloudflare-scraper.ts line 744):
an absent or empty (falsy) id defaults to the Next.js data script id. -/
def resolveScriptId (scriptId : Option String) : String :=
  match scriptId with
  | none => "__NEXT_DATA__"
  | some s => if s == "" then "__NEXT_DATA__" else s

/-- Method CloudflareScraper.getScriptData (src/cloudflare-scraper.ts lines
743-759).  `getById` models `root.getElementById` of the external HTML
parser; `parseJson` models `JSON.parse` with the surrounding try/catch (a
parse failure is none).  Soft-fails to none — never throwing — when the
element is missing, is not a script tag, or its content does not parse. -/
def getScriptData {α : Type} (getById : String → Option DomNode)
    (parseJson : String → Option α) (scriptId : Option String) : Option α :=
  let targetId := resolveScriptId scriptId
  match getById targetId with
  | none => none
  | some scriptElement =>
      if !(jsToLower scriptElement.tagName == "script") then none
      else
        let content := if scriptElement.text == "" then scriptElement.innerHTML
                       else scriptElement.text
        parseJson content

/-- The curl status-line pattern of CurlImpersonate.parseResponse
(src/curl-impersonate.ts line 339): three digits, a pipe, digits, a pipe,
digits, a pipe, digits-or-dots, a pipe, then at least one character, all
anchored.  A maximal-munch scan is equivalent to the regex here because the
pipe belongs to none of the character classes. -/
def matchStatusLine (s : String) : Bool :=
  match s.toList with
  | a :: b :: c :: '|' :: rest =>
      a.isDigit && b.isDigit && c.isDigit &&
      (let seg1 := rest.span Char.isDigit
       match seg1.1, seg1.2 with
       | _ :: _, '|' :: r2 =>
           (let seg2 := r2.span Char.isDigit
            match seg2.1, seg2.2 with
            | _ :: _, '|' :: r4 =>
                (let seg3 := r4.span (fun ch => ch.isDigit || ch == '.')
                 match seg3.1, seg3.2 with
                 | _ :: _, '|' :: r6 => !r6.isEmpty
                 | _, _ => false)
            | _, _ => false)
       | _, _ => false)
  | _ => false

/-- The backward scan of parseResponse (src/curl-impersonate.ts lines
337-344): the last line matching the status pattern, and the lines before
it (`lines.slice(0, i)`). -/
def findStatusLine (lines : List String) : Option (String × List String) :=
  match (List.range lines.length).reverse.find?
      (fun i => matchStatusLine (lines.getD i "")) with
  | some i => some (lines.getD i "", lines.take i)
  | none => none

/-- The local variables of the header-scanning loop of parseResponse
(src/curl-impersonate.ts lines 353-358). -/
structure HeaderScanState where
  headers : List (String × String)
  headerSectionCount : Nat
  inHeaders : Bool
  emptyLineCount : Nat
  isSecondHeaderSection : Bool
  deriving Repr, DecidableEq

/-- Initial header-scan state. -/
def initHeaderScan : HeaderScanState :=
  { headers := []
    headerSectionCount := 0
    inHeaders := false
    emptyLineCount := 0
    isSecondHeaderSection := false }

/-- The header/body scanning loop of parseResponse (src/curl-impersonate.ts
lines 360-405): count HTTP section starts, collect key/value lines
(lower-cased keys; only from the first section, or from the second when a
proxy-CONNECT block precedes it), and stop at the first body line (after
two blank separators when tunneling, one otherwise), returning the headers
and the remaining lines (`responseLines.slice(i)`). -/
def parseHeaderLoop : List String → HeaderScanState →
    List (String × String) × List String
  | [], st => (st.headers, [])
  | line :: rest, st =>
    if jsStartsWith line "HTTP/" then
      let count := st.headerSectionCount + 1
      parseHeaderLoop rest { st with
        headerSectionCount := count
        inHeaders := true
        isSecondHeaderSection := st.isSecondHeaderSection || count == 2 }
    else if st.inHeaders && jsTrim line == "" then
      parseHeaderLoop rest { st with
        emptyLineCount := st.emptyLineCount + 1
        inHeaders := false }
    else if st.inHeaders && strContains line ":" then
      if st.headerSectionCount == 1 || st.isSecondHeaderSection then
        let colonIndex := line.toList.findIdx (· == ':')
        let key := jsToLower (String.mk (line.toList.take colonIndex))
        let value := jsTrim (String.mk (line.toList.drop (colonIndex + 1)))
        parseHeaderLoop rest { st with headers := recordSet st.headers key value }
      else
        parseHeaderLoop rest st
    else if st.emptyLineCount ≥ 2 && jsTrim line != "" then
      (st.headers, line :: rest)
    else if st.emptyLineCount == 1 && jsTrim line != "" && !(jsStartsWith line "HTTP/") then
      (st.headers, line :: rest)
    else
      parseHeaderLoop rest st

/-- Method CurlImpersonate.getStatusText (src/curl-impersonate.ts lines
429-446). -/
def getStatusText (statusCode : Nat) : String :=
  if statusCode == 200 then "OK"
  else if statusCode == 201 then "Created"
  else if statusCode == 204 then "No Content"
  else if statusCode == 301 then "Moved Permanently"
  else if statusCode == 302 then "Found"
  else if statusCode == 304 then "Not Modified"
  else if statusCode == 400 then "Bad Request"
  else if statusCode == 401 then "Unauthorized"
  else if statusCode == 403 then "Forbidden"
  else if statusCode == 404 then "Not Found"
  else if statusCode == 500 then "Internal Server Error"
  else if statusCode == 502 then "Bad Gateway"
  else if statusCode == 503 then "Service Unavailable"
  else "Unknown"

/-- The headers collected by the scanning loop for a raw output, before the
content-type default is applied (the value of the headers local at
src/curl-impersonate.ts line 410). -/
def parsedHeaders (output : String) : List (String × String) :=
  match findStatusLine (jsSplitOn output "\n") with
  | none => []
  | some found => (parseHeaderLoop found.2 initHeaderScan).1

/-- Method CurlImpersonate.parseResponse (src/curl-impersonate.ts lines
330-424): split the raw output into lines, locate the curl status line from
the end, scan the header sections, then default a missing (or empty — JS
falsy) content-type to application/json and assemble the HttpResponse.
Within the success domain the status-code and size fields are pure digit
runs, on which digitsToNat agrees with `parseInt(..., 10)`; an empty
(falsy) effective URL falls back to the original URL. -/
def parseResponse (output : String) (originalUrl : String)
    (responseTime : Nat) : Except String HttpResponse :=
  let lines := jsSplitOn output "\n"
  match findStatusLine lines with
  | none => .error "Could not find curl status line in response"
  | some found =>
      let parts := jsSplitOn found.1 "|"
      let statusCodeStr := parts.getD 0 ""
      let sizeStr := parts.getD 2 ""
      let effectiveUrl := parts.getD 4 ""
      let scanned := parseHeaderLoop found.2 initHeaderScan
      let body := joinWith "\n" scanned.2
      let headers :=
        if (recordGet scanned.1 "content-type").getD "" == "" then
          recordSet scanned.1 "content-type" "application/json"
        else scanned.1
      let statusCode := digitsToNat statusCodeStr
      .ok { statusCode := statusCode
            statusText := getStatusText statusCode
            headers := headers
            body := body
            url := if effectiveUrl == "" then originalUrl else effectiveUrl
            responseTime := responseTime
            size := digitsToNat sizeStr }

end NodeCurlScraper

namespace NodeCurlScraper

/-!
## Concrete fixtures

Named concrete values used by the witness and counterexample theorems
below.  They are ordinary inputs to the embedded operations.
-/

def fpChrome : Fingerprint := ⟨"chrome116", "Mozilla/5.0 Chrome"⟩

def fpFirefox : Fingerprint := ⟨"firefox117", "Mozilla/5.0 Firefox"⟩

def sessionA : Session :=
  { id := "session-a", cookies := [("foo", "bar")], userAgent := "Mozilla/5.0 Chrome",
    fingerprint := fpChrome, proxy := none, createdAt := 10, lastUsed := 10,
    requestCount := 2, errorCount := 2 }

def resp429 : HttpResponse :=
  { statusCode := 429, statusText := "Unknown", headers := [], body := "",
    url := "https://example.com/", responseTime := 12, size := 0 }


/-! ## C6 — session rotation -/

def resp403 : HttpResponse :=
  { statusCode := 403, statusText := "Forbidden", headers := [], body := "",
    url := "https://example.com/", responseTime := 9, size := 0 }

def proxyA : ProxyConfig :=
  { host := "10.0.0.1", port := 8080, protocol := "http", failCount := some 2 }

def proxyExhausted : ProxyConfig :=
  { host := "10.0.0.2", port := 9090, protocol := "socks5", failCount := some 3 }

def cfgMaxFailZero : OrchestratorConfig :=
  { proxyEnabled := true, maxFailures := some 0, strategy := .failover }

def cfgProxyOn : OrchestratorConfig :=
  { proxyEnabled := true, strategy := .failover }

def captchaResponse : HttpResponse :=
  { statusCode := 200, statusText := "OK", headers := [], body := "please solve this captcha",
    url := "https://shop.example/", responseTime := 80, size := 25 }

def cfgDefault : OrchestratorConfig := {}

def cfgZeroRetries : OrchestratorConfig := { maxRetries := some 0 }

def cfgTwoRetries : OrchestratorConfig := { maxRetries := some 2 }

def twoFailTransport : Nat → TransportOutcome :=
  fun n => if n == 0 then .err "ECONNRESET" false 3 else .err "socket hang up" false 4

def proxyHealthy : ProxyConfig := { host := "10.0.0.3", port := 3128, protocol := "http" }

def stWithProxy : ReqState :=
  { session := { sessionA with proxy := some 0 }, pool := [proxyHealthy], proxyIndex := 0,
    now := 50, transportCalls := 1, delays := [], attempts := 1, allErrors := [] }

def scriptNode : DomNode := ⟨"SCRIPT", "[1,2]", "[1,2]"⟩

def divNode : DomNode := ⟨"div", "[1,2]", "[1,2]"⟩

def domWithScript : String → Option DomNode :=
  fun id => if id == "__NEXT_DATA__" then some scriptNode else none

def domWithDiv : String → Option DomNode :=
  fun id => if id == "__NEXT_DATA__" then some divNode else none

def jsonParserExample : String → Option Nat :=
  fun s => if s == "[1,2]" then some 12 else none

def rawOutputExample : String :=
  "HTTP/1.1 200 OK\nserver: nginx\n\n[1,2]\n200|2|5|0.12|http://x/"

def decodedExample : HttpResponse :=
  { statusCode := 200, statusText := "OK",
    headers := [("server", "nginx"), ("content-type", "application/json")],
    body := "[1,2]", url := "http://x/", responseTime := 5, size := 5 }

/-!
## General lemmas shared by several claims
-/

theorem strContains_iff (s pat : String) :
    strContains s pat = true ↔ pat.toList <:+: s.toList := by
  unfold strContains
  rw [List.any_eq_true]
  constructor
  · rintro ⟨i, -, hpre⟩
    rw [List.isPrefixOf_iff_prefix] at hpre
    exact hpre.isInfix.trans (List.drop_suffix i s.toList).isInfix
  · rintro ⟨u, t, h⟩
    refine ⟨u.length, ?_, ?_⟩
    · rw [List.mem_range]
      have hlen := congrArg List.length h
      simp only [List.length_append] at hlen
      omega
    · rw [List.isPrefixOf_iff_prefix]
      have hdrop : s.toList.drop u.length = pat.toList ++ t := by
        rw [← h, List.append_assoc, List.drop_left]
      rw [hdrop]
      exact List.prefix_append _ _

theorem effMaxRetries_pos (cfg : OrchestratorConfig) : 0 < effMaxRetries cfg := by
  unfold effMaxRetries
  rcases h : cfg.maxRetries with _ | n
  · simp only [h]
    omega
  · rcases n with _ | m <;> simp only [h] <;> omega

theorem effMaxFailures_pos (cfg : OrchestratorConfig) : 0 < effMaxFailures cfg := by
  unfold effMaxFailures
  rcases h : cfg.maxFailures with _ | n
  · simp only [h]
    omega
  · rcases n with _ | m <;> simp only [h] <;> omega

theorem proxyEligible_iff (cfg : OrchestratorConfig) (p : ProxyConfig) :
    proxyEligible cfg p = true ↔ p.failCount.getD 0 < effMaxFailures cfg := by
  have hpos := effMaxFailures_pos cfg
  unfold proxyEligible
  rcases p.failCount with _ | c
  · simp [hpos]
  · simp only [Option.getD_some, Bool.or_eq_true, beq_iff_eq, decide_eq_true_eq]
    omega

theorem getD_mem_of_lt {l : List Nat} {i : Nat} (h : i < l.length) :
    l.getD i 0 ∈ l := by
  rw [List.getD_eq_getElem l 0 h]
  exact List.getElem_mem h

/-! ## Concrete fixtures used by witnesses and counterexamples -/

theorem recordGet_recordSet_self (m : List (String × String)) (k v : String) :
    recordGet (recordSet m k v) k = some v := by
  unfold recordSet
  by_cases h : (m.find? (fun kv => kv.1 == k)).isSome
  · rw [if_pos h]
    unfold recordGet at h ⊢
    induction m with
    | nil => simp at h
    | cons x xs ih =>
      by_cases hx : (x.1 == k) = true
      · simp only [List.map_cons, if_pos hx]
        rw [List.find?_cons_of_pos _ (by simpa using hx)]
        rfl
      · rw [List.find?_cons_of_neg _ (by simpa using hx)] at h
        simp only [List.map_cons, if_neg hx]
        rw [List.find?_cons_of_neg _ (by simpa using hx)]
        exact ih h
  · rw [if_neg h]
    unfold recordGet
    rw [List.find?_append]
    rw [Option.not_isSome_iff_eq_none] at h
    rw [h]
    simp

theorem storeGet_storeSet_self (store : SessionStore) (s : Session) :
    storeGet (storeSet store s) s.id = some s := by
  unfold storeSet
  by_cases h : (storeGet store s.id).isSome
  · rw [if_pos h]
    unfold storeGet at h ⊢
    induction store with
    | nil => simp at h
    | cons x xs ih =>
      by_cases hx : (x.id == s.id) = true
      · simp only [List.map_cons, if_pos hx]
        rw [List.find?_cons_of_pos _ (by simp)]
      · rw [List.find?_cons_of_neg _ (by simpa using hx)] at h
        simp only [List.map_cons, if_neg hx]
        rw [List.find?_cons_of_neg _ (by simpa using hx)]
        exact ih h
  · rw [if_neg h]
    unfold storeGet at h ⊢
    rw [List.find?_append]
    rw [Option.not_isSome_iff_eq_none] at h
    rw [h]
    simp

theorem storeSet_storeSet_self (store : SessionStore) (s : Session) :
    storeSet (storeSet store s) s = storeSet store s := by
  have hget : storeGet (storeSet store s) s.id = some s := storeGet_storeSet_self store s
  have hisSome : (storeGet (storeSet store s) s.id).isSome = true := by
    rw [hget]
    rfl
  conv_lhs => rw [storeSet, if_pos hisSome]
  unfold storeSet
  by_cases h : (storeGet store s.id).isSome
  · rw [if_pos h, List.map_map]
    apply List.map_congr_left
    intro y _
    by_cases hy : (y.id == s.id) = true
    · simp [Function.comp, hy]
    · simp [Function.comp, hy]
  · rw [if_neg h, List.map_append]
    unfold storeGet at h
    rw [Option.not_isSome_iff_eq_none, List.find?_eq_none] at h
    have hmap : List.map (fun t => if t.id == s.id then s else t) store = store := by
      conv_rhs => rw [← List.map_id store]
      apply List.map_congr_left
      intro y hy
      simp [h y hy]
    rw [hmap]
    simp

theorem listUpdateAt_get?_self {α : Type} (l : List α) (j : Nat) (f : α → α) :
    (listUpdateAt l j f).get? j = (l.get? j).map f := by
  induction l generalizing j with
  | nil => simp [listUpdateAt]
  | cons x xs ih =>
    rcases j with _ | j
    · simp [listUpdateAt]
    · simpa [listUpdateAt] using ih j

theorem listUpdateAt_get?_ne {α : Type} (l : List α) (j i : Nat) (f : α → α)
    (h : i ≠ j) :
    (listUpdateAt l j f).get? i = l.get? i := by
  induction l generalizing i j with
  | nil => simp [listUpdateAt]
  | cons x xs ih =>
    rcases j with _ | j
    · rcases i with _ | i
      · exact absurd rfl h
      · simp [listUpdateAt]
    · rcases i with _ | i
      · simp [listUpdateAt]
      · simpa [listUpdateAt] using ih j i (by omega)

theorem catchState_transportCalls (cfg : OrchestratorConfig) (catalog : List Fingerprint)
    (rotDraw : Nat) (msg : String) (isCF : Bool) (st : ReqState) :
    (handleCatch cfg catalog rotDraw msg isCF st).state.transportCalls = st.transportCalls := by
  unfold handleCatch
  dsimp only
  split_ifs <;> simp [CatchResult.state]

theorem proxyStep_transportCalls (cfg : OrchestratorConfig) (draw : Nat) (st : ReqState) :
    (proxyStep cfg draw st).transportCalls = st.transportCalls := by
  unfold proxyStep
  split
  · split <;> rfl
  · rfl

theorem attemptStep_state_transportCalls (cfg : OrchestratorConfig) (catalog : List Fingerprint)
    (transport : Nat → TransportOutcome) (rotDraw : Nat) (st : ReqState) :
    (attemptStep cfg catalog transport rotDraw st).state.transportCalls = st.transportCalls + 1 := by
  unfold attemptStep
  rcases transport st.transportCalls with _ | _
  · dsimp only
    rw [if_neg]
    · rfl
    · simp [isCloudflareChallengeCF]
  · dsimp only
    rw [catchState_transportCalls]

theorem requestLoop_transportCalls_le (cfg : OrchestratorConfig) (catalog : List Fingerprint)
    (transport : Nat → TransportOutcome) (proxyDraw rotDraw : Nat → Nat) :
    ∀ fuel st, ((requestLoop cfg catalog transport proxyDraw rotDraw fuel st).2).transportCalls ≤
      st.transportCalls + fuel := by
  intro fuel
  induction fuel with
  | zero =>
    intro st
    simp [requestLoop]
  | succ n ih =>
    intro st
    have hstate := attemptStep_state_transportCalls cfg catalog transport
      (rotDraw (st.attempts + 1)) (proxyStep cfg (proxyDraw (st.attempts + 1)) (beginAttempt st))
    rw [proxyStep_transportCalls] at hstate
    have hbegin : (beginAttempt st).transportCalls = st.transportCalls := rfl
    rw [hbegin] at hstate
    unfold requestLoop
    cases hstep : attemptStep cfg catalog transport (rotDraw (st.attempts + 1))
        (proxyStep cfg (proxyDraw (st.attempts + 1)) (beginAttempt st)) with
    | contLoop st' =>
      rw [hstep] at hstate
      simp only [CatchResult.state] at hstate
      dsimp only
      have hih := ih st'
      omega
    | thrownOut out st' =>
      rw [hstep] at hstate
      simp only [CatchResult.state] at hstate
      dsimp only
      omega
    | breakOut st' =>
      rw [hstep] at hstate
      simp only [CatchResult.state] at hstate
      dsimp only
      omega

theorem requestLoop_first_ok (cfg : OrchestratorConfig) (catalog : List Fingerprint)
    (transport : Nat → TransportOutcome) (proxyDraw rotDraw : Nat → Nat)
    (fuel : Nat) (st : ReqState) (resp : HttpResponse) (dur : Nat)
    (ht : transport st.transportCalls = .ok resp dur) :
    (requestLoop cfg catalog transport proxyDraw rotDraw (fuel + 1) st).1 = .success resp ∧
    ((requestLoop cfg catalog transport proxyDraw rotDraw (fuel + 1) st).2).transportCalls
      = st.transportCalls + 1 := by
  have hcall : (proxyStep cfg (proxyDraw (st.attempts + 1)) (beginAttempt st)).transportCalls
      = st.transportCalls := by
    rw [proxyStep_transportCalls]
    rfl
  obtain ⟨st', hstep, hst'⟩ : ∃ st',
      attemptStep cfg catalog transport (rotDraw (st.attempts + 1))
        (proxyStep cfg (proxyDraw (st.attempts + 1)) (beginAttempt st)) =
        .thrownOut (.success resp) st' ∧ st'.transportCalls = st.transportCalls + 1 := by
    unfold attemptStep
    rw [hcall, ht]
    dsimp only
    rw [if_neg (by simp [isCloudflareChallengeCF])]
    refine ⟨_, rfl, ?_⟩
    simp [proxyStep_transportCalls, beginAttempt]
  constructor
  · unfold requestLoop
    rw [hstep]
  · unfold requestLoop
    rw [hstep]
    exact hst'

theorem proxyStep_disabled (cfg : OrchestratorConfig) (draw : Nat) (st : ReqState)
    (hpx : cfg.proxyEnabled = false) :
    proxyStep cfg draw st = st := by
  unfold proxyStep
  simp [hpx]

theorem requestLoop_err_step (cfg : OrchestratorConfig) (catalog : List Fingerprint)
    (transport : Nat → TransportOutcome) (pd rd : Nat → Nat) (fuel : Nat)
    (st : ReqState) (m : String) (d : Nat)
    (hpx : cfg.proxyEnabled = false)
    (ht : transport st.transportCalls = .err m false d)
    (hm : isProxyError m = false)
    (hlt : st.attempts + 1 < effMaxRetries cfg) :
    requestLoop cfg catalog transport pd rd (fuel + 1) st =
      requestLoop cfg catalog transport pd rd fuel
        { session := { st.session with
            lastUsed := st.now
            requestCount := st.session.requestCount + 1
            errorCount := st.session.errorCount + 1 }
          pool := st.pool
          proxyIndex := st.proxyIndex
          now := st.now + d + 1000 * (st.attempts + 1)
          transportCalls := st.transportCalls + 1
          delays := st.delays ++ [1000 * (st.attempts + 1)]
          attempts := st.attempts + 1
          allErrors := st.allErrors ++ [⟨st.attempts + 1, m, st.now + d⟩] } := by
  have hstep : attemptStep cfg catalog transport (rd (st.attempts + 1)) (beginAttempt st) =
      .contLoop
        { session := { st.session with
            lastUsed := st.now
            requestCount := st.session.requestCount + 1
            errorCount := st.session.errorCount + 1 }
          pool := st.pool
          proxyIndex := st.proxyIndex
          now := st.now + d + 1000 * (st.attempts + 1)
          transportCalls := st.transportCalls + 1
          delays := st.delays ++ [1000 * (st.attempts + 1)]
          attempts := st.attempts + 1
          allErrors := st.allErrors ++ [⟨st.attempts + 1, m, st.now + d⟩] } := by
    unfold attemptStep
    have hc : (beginAttempt st).transportCalls = st.transportCalls := rfl
    rw [hc, ht]
    dsimp only
    unfold handleCatch
    have hba : beginAttempt st = { st with
        attempts := st.attempts + 1
        session := { st.session with
          lastUsed := st.now
          requestCount := st.session.requestCount + 1 } } := rfl
    rw [hba]
    dsimp only
    rw [if_neg (by simp [hm]), if_neg (by simp), if_pos hlt]
  conv_lhs => rw [requestLoop]
  rw [proxyStep_disabled cfg _ _ hpx, hstep]

theorem requestLoop_err_last (cfg : OrchestratorConfig) (catalog : List Fingerprint)
    (transport : Nat → TransportOutcome) (pd rd : Nat → Nat) (fuel : Nat)
    (st : ReqState) (m : String) (d : Nat)
    (hpx : cfg.proxyEnabled = false)
    (ht : transport st.transportCalls = .err m false d)
    (hm : isProxyError m = false)
    (hlt : ¬(st.attempts + 1 < effMaxRetries cfg)) :
    requestLoop cfg catalog transport pd rd (fuel + 1) st =
      (.maxRetriesExceeded (st.attempts + 1)
         (st.allErrors ++ [⟨st.attempts + 1, m, st.now + d⟩]),
       { session := { st.session with
           lastUsed := st.now
           requestCount := st.session.requestCount + 1
           errorCount := st.session.errorCount + 1 }
         pool := st.pool
         proxyIndex := st.proxyIndex
         now := st.now + d
         transportCalls := st.transportCalls + 1
         delays := st.delays
         attempts := st.attempts + 1
         allErrors := st.allErrors ++ [⟨st.attempts + 1, m, st.now + d⟩] }) := by
  have hstep : attemptStep cfg catalog transport (rd (st.attempts + 1)) (beginAttempt st) =
      .breakOut
        { session := { st.session with
            lastUsed := st.now
            requestCount := st.session.requestCount + 1
            errorCount := st.session.errorCount + 1 }
          pool := st.pool
          proxyIndex := st.proxyIndex
          now := st.now + d
          transportCalls := st.transportCalls + 1
          delays := st.delays
          attempts := st.attempts + 1
          allErrors := st.allErrors ++ [⟨st.attempts + 1, m, st.now + d⟩] } := by
    unfold attemptStep
    have hc : (beginAttempt st).transportCalls = st.transportCalls := rfl
    rw [hc, ht]
    dsimp only
    unfold handleCatch
    have hba : beginAttempt st = { st with
        attempts := st.attempts + 1
        session := { st.session with
          lastUsed := st.now
          requestCount := st.session.requestCount + 1 } } := rfl
    rw [hba]
    dsimp only
    rw [if_neg (by simp [hm]), if_neg (by simp), if_neg hlt]
  conv_lhs => rw [requestLoop]
  rw [proxyStep_disabled cfg _ _ hpx, hstep]

theorem getNextProxy_mem_avail (cfg : OrchestratorConfig) (pool : List ProxyConfig)
    (proxyIndex r now j : Nat)
    (hj : (getNextProxy cfg pool proxyIndex r now).1 = some j) :
    j ∈ availableProxyIdx cfg pool := by
  unfold getNextProxy at hj
  by_cases h1 : (!cfg.proxyEnabled || pool.length == 0) = true
  · rw [if_pos h1] at hj
    simp at hj
  · rw [if_neg h1] at hj
    by_cases h2 : ((availableProxyIdx cfg pool).length == 0) = true
    · rw [if_pos h2] at hj
      simp at hj
    · rw [if_neg h2] at hj
      have hpos : 0 < (availableProxyIdx cfg pool).length := by
        simp only [beq_iff_eq] at h2
        omega
      have hsel : selectProxyIdx cfg (availableProxyIdx cfg pool) proxyIndex r = j :=
        Option.some.inj hj
      rw [← hsel]
      unfold selectProxyIdx
      rcases cfg.strategy
      · exact getD_mem_of_lt (Nat.mod_lt _ hpos)
      · exact getD_mem_of_lt (Nat.mod_lt _ hpos)
      · exact getD_mem_of_lt hpos

theorem restoreSessionState_idem (store : SessionStore) (state : SessionState) :
    restoreSessionState (restoreSessionState store state) state =
      restoreSessionState store state := by
  unfold restoreSessionState
  cases hg : storeGet store state.id with
  | none =>
    dsimp only
    set newS : Session :=
      { id := state.id, cookies := state.cookies, userAgent := state.userAgent,
        fingerprint := state.fingerprint, proxy := none, createdAt := state.createdAt,
        lastUsed := state.lastUsed, requestCount := state.requestCount,
        errorCount := state.errorCount } with hnew
    have h2 : storeGet (storeSet store newS) state.id = some newS :=
      storeGet_storeSet_self store newS
    rw [h2]
    show storeSet (storeSet store newS) newS = storeSet store newS
    exact storeSet_storeSet_self store newS
  | some s =>
    dsimp only
    have hsid : s.id = state.id := by
      have := List.find?_some hg
      simpa using this
    set updS : Session :=
      { s with
        cookies := state.cookies
        userAgent := state.userAgent
        fingerprint := state.fingerprint
        lastUsed := state.lastUsed
        requestCount := state.requestCount
        errorCount := state.errorCount } with hupd
    have h2 : storeGet (storeSet store updS) state.id = some updS := by
      have h3 := storeGet_storeSet_self store updS
      have h4 : updS.id = state.id := hsid
      rwa [h4] at h3
    rw [h2]
    show storeSet (storeSet store updS) updS = storeSet store updS
    exact storeSet_storeSet_self store updS


end NodeCurlScraper

namespace NodeCurlScraper

/-!
## Claim theorems
-/

/-- C1 (amended): the orchestrator class CloudflareScraper has its
challenge classifier disabled — it returns false for every response — and
the CurlScraper classifier returns true exactly when the status code is 403
or 503 (NOT 429), or some header name contains one of the six
Cloudflare-related substrings, or the body contains one of THREE fixed
phrases (cloudflare, checking your browser, ddos protection) — the phrases
"please wait while we verify" and "challenge-form" are not checked. -/

theorem c1_amended (response : HttpResponse) :
    isCloudflareChallengeCF response = false ∧
    (isCloudflareChallengeCurl response = true ↔
      (response.statusCode = 403 ∨ response.statusCode = 503 ∨
       (∃ kv ∈ response.headers, ∃ indicator ∈ cloudflareIndicators,
          indicator.toList <:+: (jsToLower kv.1).toList) ∨
       "cloudflare".toList <:+: (jsToLower response.body).toList ∨
       "checking your browser".toList <:+: (jsToLower response.body).toList ∨
       "ddos protection".toList <:+: (jsToLower response.body).toList)) := by
  refine ⟨rfl, ?_⟩
  have hheader :
      ((response.headers.map (fun kv => jsToLower kv.1)).any
        (fun h => cloudflareIndicators.any (fun indicator => strContains h indicator)) = true) ↔
      (∃ kv ∈ response.headers, ∃ indicator ∈ cloudflareIndicators,
         indicator.toList <:+: (jsToLower kv.1).toList) := by
    simp only [List.any_eq_true, List.mem_map, strContains_iff]
    constructor
    · rintro ⟨x, ⟨kv, hkv, rfl⟩, hx⟩
      exact ⟨kv, hkv, hx⟩
    · rintro ⟨kv, hkv, hx⟩
      exact ⟨jsToLower kv.1, ⟨kv, hkv, rfl⟩, hx⟩
  unfold isCloudflareChallengeCurl
  simp only [Bool.or_eq_true, beq_iff_eq, strContains_iff, hheader, or_assoc]

/-- C1 witness: the amended classification applied to a concrete 403
response. -/
theorem c1_witness :
    isCloudflareChallengeCF resp403 = false ∧
    (isCloudflareChallengeCurl resp403 = true ↔
      (resp403.statusCode = 403 ∨ resp403.statusCode = 503 ∨
       (∃ kv ∈ resp403.headers, ∃ indicator ∈ cloudflareIndicators,
          indicator.toList <:+: (jsToLower kv.1).toList) ∨
       "cloudflare".toList <:+: (jsToLower resp403.body).toList ∨
       "checking your browser".toList <:+: (jsToLower resp403.body).toList ∨
       "ddos protection".toList <:+: (jsToLower resp403.body).toList)) :=
  c1_amended resp403

/-- C1 counterexample: a bare 429 response satisfies the specification
predicate (status 403/429/503, six header substrings, five body phrases)
but neither source classifier flags it — CloudflareScraper detection is
disabled outright and CurlScraper checks only 403/503. -/
theorem c1_counterexample :
    specChallengePredicate resp429 = true ∧
    isCloudflareChallengeCF resp429 = false ∧
    isCloudflareChallengeCurl resp429 = false := by decide

/-- C2 (amended): a response body containing "captcha" is not specially
classified — the CloudflareScraper challenge detector returns false for
every response — so whenever the first Transport invocation succeeds,
`request()` returns that response as a success after exactly one Transport
invocation instead of throwing. -/
theorem c2_amended (cfg : OrchestratorConfig) (catalog : List Fingerprint)
    (transport : Nat → TransportOutcome) (proxyDraw rotDraw : Nat → Nat)
    (store : SessionStore) (pool : List ProxyConfig) (proxyIndex now : Nat)
    (uuid : String) (freshFp : Fingerprint) (sessionId : Option String)
    (resp : HttpResponse) (dur : Nat)
    (ht : transport 0 = .ok resp dur) :
    isCloudflareChallengeCF resp = false ∧
    (request cfg catalog transport proxyDraw rotDraw store pool proxyIndex now uuid
        freshFp sessionId).1 = .success resp ∧
    ((request cfg catalog transport proxyDraw rotDraw store pool proxyIndex now uuid
        freshFp sessionId).2).transportCalls = 1 := by
  obtain ⟨k, hk⟩ : ∃ k, effMaxRetries cfg = k + 1 :=
    ⟨effMaxRetries cfg - 1, by have := effMaxRetries_pos cfg; omega⟩
  unfold request
  rw [hk]
  have h := requestLoop_first_ok cfg catalog transport proxyDraw rotDraw k
    { session := (getSession cfg store now uuid freshFp sessionId false).1
      pool := pool, proxyIndex := proxyIndex, now := now, transportCalls := 0
      delays := [], attempts := 0, allErrors := [] } resp dur ht
  exact ⟨rfl, h.1, h.2⟩

/-- C2 witness: the amended theorem applied to a transport that returns a
captcha-mentioning body on every call. -/
theorem c2_witness :
    isCloudflareChallengeCF captchaResponse = false ∧
    (request cfgDefault [fpChrome] (fun _ => .ok captchaResponse 5) (fun _ => 0) (fun _ => 0)
        [] [] 0 30 "uuid-2" fpChrome none).1 = .success captchaResponse ∧
    ((request cfgDefault [fpChrome] (fun _ => .ok captchaResponse 5) (fun _ => 0) (fun _ => 0)
        [] [] 0 30 "uuid-2" fpChrome none).2).transportCalls = 1 :=
  c2_amended cfgDefault [fpChrome] (fun _ => .ok captchaResponse 5) (fun _ => 0) (fun _ => 0)
    [] [] 0 30 "uuid-2" fpChrome none captchaResponse 5 rfl

/-- C2 counterexample: with the default configuration and a transport that
returns a 200 response whose body contains "captcha", `request()` does not
throw — it returns the response as a success after the first attempt,
refuting "request() throws immediately after the first attempt". -/
theorem c2_counterexample :
    strContains (jsToLower captchaResponse.body) "captcha" = true ∧
    (request cfgDefault [fpChrome, fpFirefox] (fun _ => .ok captchaResponse 0) (fun _ => 0)
        (fun _ => 0) [sessionA] [] 0 20 "uuid-1" fpChrome (some "session-a")).1
      = .success captchaResponse ∧
    ((request cfgDefault [fpChrome, fpFirefox] (fun _ => .ok captchaResponse 0) (fun _ => 0)
        (fun _ => 0) [sessionA] [] 0 20 "uuid-1" fpChrome (some "session-a")).2).transportCalls
      = 1 := by decide

/-- C3 (amended): a single `request()` call performs at most the EFFECTIVE
retry cap of Transport invocations — the configured session.maxRetries,
except that an unset or zero (JS falsy) value falls back to 3. -/
theorem c3_amended (cfg : OrchestratorConfig) (catalog : List Fingerprint)
    (transport : Nat → TransportOutcome) (proxyDraw rotDraw : Nat → Nat)
    (store : SessionStore) (pool : List ProxyConfig) (proxyIndex now : Nat)
    (uuid : String) (freshFp : Fingerprint) (sessionId : Option String) :
    ((request cfg catalog transport proxyDraw rotDraw store pool proxyIndex now uuid
        freshFp sessionId).2).transportCalls ≤ effMaxRetries cfg := by
  unfold request
  have h := requestLoop_transportCalls_le cfg catalog transport proxyDraw rotDraw
    (effMaxRetries cfg)
    { session := (getSession cfg store now uuid freshFp sessionId false).1
      pool := pool, proxyIndex := proxyIndex, now := now, transportCalls := 0
      delays := [], attempts := 0, allErrors := [] }
  simpa using h

/-- C3 witness: the amended bound applied to concrete inputs. -/
theorem c3_witness :
    ((request cfgDefault [fpChrome] (fun _ => .err "Network error" false 0) (fun _ => 0)
        (fun _ => 0) [] [] 0 7 "uuid-9" fpChrome none).2).transportCalls ≤
      effMaxRetries cfgDefault :=
  c3_amended cfgDefault [fpChrome] (fun _ => .err "Network error" false 0) (fun _ => 0)
    (fun _ => 0) [] [] 0 7 "uuid-9" fpChrome none

/-- C3 counterexample: with a configured maxRetries of 0 (a falsy value,
so the loop bound falls back to 3), a call against an always-failing
transport performs 3 Transport invocations — more than the configured
maxRetries, refuting the claim as stated. -/
theorem c3_counterexample :
    cfgZeroRetries.maxRetries = some 0 ∧
    ((request cfgZeroRetries [fpChrome, fpFirefox] (fun _ => .err "Network error" false 0)
        (fun _ => 0) (fun _ => 0) [sessionA] [] 0 20 "uuid-3" fpChrome
        (some "session-a")).2).transportCalls = 3 ∧
    ¬(3 ≤ 0) := by decide

/-- C4 (amended): with maxRetries = 2 and a transport failing both
attempts with generic transient errors, `request()` throws the terminal
aggregate error embedding exactly the two recorded attempts — each with its
message and timestamp, strictly increasing — after performing a SINGLE
backoff of 1000 ms between the two attempts (the second delay of 2000 ms
never happens: no delay follows the final attempt). -/
theorem c4_amended (m1 m2 : String) (d1 d2 t0 : Nat)
    (catalog : List Fingerprint) (transport : Nat → TransportOutcome)
    (proxyDraw rotDraw : Nat → Nat) (store : SessionStore) (pool : List ProxyConfig)
    (proxyIndex : Nat) (uuid : String) (freshFp : Fingerprint) (sessionId : Option String)
    (hm1 : isProxyError m1 = false) (hm2 : isProxyError m2 = false)
    (ht0 : transport 0 = .err m1 false d1) (ht1 : transport 1 = .err m2 false d2) :
    (request cfgTwoRetries catalog transport proxyDraw rotDraw store pool proxyIndex t0 uuid
        freshFp sessionId).1
      = .maxRetriesExceeded 2 [⟨1, m1, t0 + d1⟩, ⟨2, m2, t0 + d1 + 1000 + d2⟩] ∧
    ((request cfgTwoRetries catalog transport proxyDraw rotDraw store pool proxyIndex t0 uuid
        freshFp sessionId).2).delays = [1000] ∧
    t0 + d1 < t0 + d1 + 1000 + d2 := by
  have heff : effMaxRetries cfgTwoRetries = 2 := rfl
  have hpx : cfgTwoRetries.proxyEnabled = false := rfl
  unfold request
  rw [heff]
  rw [requestLoop_err_step cfgTwoRetries catalog transport proxyDraw rotDraw 1 _ m1 d1 hpx
    ht0 hm1 (by show 0 + 1 < effMaxRetries cfgTwoRetries; decide)]
  rw [requestLoop_err_last cfgTwoRetries catalog transport proxyDraw rotDraw 0 _ m2 d2 hpx
    ht1 hm2 (by show ¬(0 + 1 + 1 < effMaxRetries cfgTwoRetries); decide)]
  refine ⟨?_, ?_, by omega⟩
  · dsimp only
    norm_num
  · dsimp only
    norm_num

/-- C4 witness: the amended theorem applied to a concrete two-failure
transport. -/
theorem c4_witness :
    (request cfgTwoRetries [fpChrome] twoFailTransport (fun _ => 0) (fun _ => 0)
        [] [] 0 5 "uuid-4" fpChrome none).1
      = .maxRetriesExceeded 2
          [⟨1, "ECONNRESET", 5 + 3⟩, ⟨2, "socket hang up", 5 + 3 + 1000 + 4⟩] ∧
    ((request cfgTwoRetries [fpChrome] twoFailTransport (fun _ => 0) (fun _ => 0)
        [] [] 0 5 "uuid-4" fpChrome none).2).delays = [1000] ∧
    5 + 3 < 5 + 3 + 1000 + 4 :=
  c4_amended "ECONNRESET" "socket hang up" 3 4 5 [fpChrome] twoFailTransport
    (fun _ => 0) (fun _ => 0) [] [] 0 "uuid-4" fpChrome none
    (by decide) (by decide) rfl rfl

/-- C4 counterexample: in the maxRetries = 2 exhaustion run the list of
backoff delays actually performed is [1000], not the claimed 1000 ms
followed by 2000 ms. -/
theorem c4_counterexample :
    ((request cfgTwoRetries [fpChrome] (fun _ => .err "Network error" false 0) (fun _ => 0)
        (fun _ => 0) [] [] 0 0 "uuid-5" fpChrome none).2).delays = [1000] ∧
    [1000] ≠ ([1000, 2000] : List Nat) := by decide

/-- C5 (amended): when a thrown error message contains one of the SEVEN
code keywords (connection refused, connection timeout, dns resolution
failed, authentication failed, proxy authentication, socks, proxy error —
matched case-insensitively) and proxyRotation.autoSwitch is on, the catch
block increments the session's current proxy's failCount in the pool
(leaving other entries untouched), rotates the session (new catalog
fingerprint, errorCount reset to 0, same id), records the attempt, and
continues the retry loop. -/
theorem c5_amended (cfg : OrchestratorConfig) (catalog : List Fingerprint)
    (rotDraw : Nat) (msg : String) (isCF : Bool) (st : ReqState)
    (j : Nat) (p : ProxyConfig) (nf : Fingerprint)
    (hmsg : isProxyError msg = true)
    (hsw : cfg.autoSwitch = true)
    (hj : st.session.proxy = some j)
    (hp : st.pool.get? j = some p)
    (hnf : catalog.get? rotDraw = some nf) :
    ∃ st', handleCatch cfg catalog rotDraw msg isCF st = .contLoop st' ∧
      st'.pool.get? j = some { p with failCount := some (p.failCount.getD 0 + 1) } ∧
      (∀ i, i ≠ j → st'.pool.get? i = st.pool.get? i) ∧
      st'.session.errorCount = 0 ∧
      st'.session.fingerprint = nf ∧
      st'.session.id = st.session.id ∧
      st'.allErrors = st.allErrors ++ [⟨st.attempts, msg, st.now⟩] := by
  unfold handleCatch
  rw [hmsg, hsw]
  simp only [if_true]
  have hnf2 : catalog[rotDraw]? = some nf := by
    rw [← List.get?_eq_getElem?]
    exact hnf
  refine ⟨_, rfl, ?_, ?_, ?_, ?_, ?_, ?_⟩
  · simp only [markProxyFailed, hj, listUpdateAt_get?_self, hp]
    rfl
  · intro i hi
    simp only [markProxyFailed, hj]
    exact listUpdateAt_get?_ne st.pool j i _ hi
  · simp [rotateSession, hnf2]
  · simp [rotateSession, hnf2]
  · simp [rotateSession, hnf2]
  · rfl

/-- C5 witness: the amended theorem applied to a message containing the
"socks" keyword, a one-proxy pool and a two-entry catalog. -/
theorem c5_witness :
    ∃ st', handleCatch cfgProxyOn [fpChrome, fpFirefox] 1 "socks connection failed" false
        stWithProxy = .contLoop st' ∧
      st'.pool.get? 0 = some { proxyHealthy with
        failCount := some (proxyHealthy.failCount.getD 0 + 1) } ∧
      (∀ i, i ≠ 0 → st'.pool.get? i = stWithProxy.pool.get? i) ∧
      st'.session.errorCount = 0 ∧
      st'.session.fingerprint = fpFirefox ∧
      st'.session.id = stWithProxy.session.id ∧
      st'.allErrors = stWithProxy.allErrors ++
        [⟨stWithProxy.attempts, "socks connection failed", stWithProxy.now⟩] :=
  c5_amended cfgProxyOn [fpChrome, fpFirefox] 1 "socks connection failed" false
    stWithProxy 0 proxyHealthy fpFirefox (by decide) rfl rfl (by decide) (by decide)

/-- C5 counterexample: the message "timeout" contains the keyword the claim
lists, yet `isProxyError` does not match it (the code keyword is
"connection timeout"), so the catch block leaves the proxy's failCount
untouched, performs a generic 1000 ms backoff instead, and keeps the
session fingerprint — refuting the claimed proxy-failure handling. -/
theorem c5_counterexample :
    isProxyError "timeout" = false ∧
    (handleCatch cfgProxyOn [fpChrome, fpFirefox] 1 "timeout" false stWithProxy).state.pool.map
      ProxyConfig.failCount = [none] ∧
    (handleCatch cfgProxyOn [fpChrome, fpFirefox] 1 "timeout" false stWithProxy).state.delays
      = [1000] ∧
    (handleCatch cfgProxyOn [fpChrome, fpFirefox] 1 "timeout" false
      stWithProxy).state.session.fingerprint = stWithProxy.session.fingerprint := by decide

/-- C6 (amended): rotateSession resets errorCount to 0, keeps the session
identity and cookies, and assigns a catalog member as the new fingerprint
(with its user agent) — but the uniform random draw may pick the current
fingerprint again, so the fingerprint does NOT necessarily differ even when
the catalog has more than one entry. -/
theorem c6_amended (catalog : List Fingerprint) (k : Nat) (s : Session)
    (hk : k < catalog.length) :
    (rotateSession catalog k s).errorCount = 0 ∧
    (rotateSession catalog k s).fingerprint ∈ catalog ∧
    (rotateSession catalog k s).id = s.id ∧
    (rotateSession catalog k s).cookies = s.cookies ∧
    (rotateSession catalog k s).userAgent = (rotateSession catalog k s).fingerprint.userAgent := by
  unfold rotateSession
  rcases h : catalog.get? k with _ | nf
  · exact absurd (List.get?_eq_none.mp h) (by omega)
  · simpa using List.get?_mem h

/-- C6 witness: the amended theorem applied to a two-entry catalog,
drawing index 1. -/
theorem c6_witness :
    1 < ([fpChrome, fpFirefox] : List Fingerprint).length ∧
    ((rotateSession [fpChrome, fpFirefox] 1 sessionA).errorCount = 0 ∧
     (rotateSession [fpChrome, fpFirefox] 1 sessionA).fingerprint ∈ [fpChrome, fpFirefox] ∧
     (rotateSession [fpChrome, fpFirefox] 1 sessionA).id = sessionA.id ∧
     (rotateSession [fpChrome, fpFirefox] 1 sessionA).cookies = sessionA.cookies ∧
     (rotateSession [fpChrome, fpFirefox] 1 sessionA).userAgent =
       (rotateSession [fpChrome, fpFirefox] 1 sessionA).fingerprint.userAgent) :=
  ⟨by decide, c6_amended [fpChrome, fpFirefox] 1 sessionA (by decide)⟩

/-- C6 counterexample: with a two-entry catalog the draw can repeat index
0, leaving the fingerprint equal to its pre-rotation value — refuting
"fingerprint differs whenever the catalog has more than one entry". -/
theorem c6_counterexample :
    1 < ([fpChrome, fpFirefox] : List Fingerprint).length ∧
    (rotateSession [fpChrome, fpFirefox] 0 sessionA).fingerprint = sessionA.fingerprint := by
  decide

/-! ## C7 — proxy pool exclusion -/

/-- C7 (amended): under every strategy getNextProxy never returns a proxy
whose failCount reaches the EFFECTIVE failure threshold (the configured
maxFailures, except that an unset or zero — JS falsy — value falls back to
3), and returns none when every pool entry is at or over that threshold. -/
theorem c7_amended (cfg : OrchestratorConfig) (pool : List ProxyConfig)
    (proxyIndex r now : Nat) :
    (∀ j, (getNextProxy cfg pool proxyIndex r now).1 = some j →
        ∃ p, pool.get? j = some p ∧ p.failCount.getD 0 < effMaxFailures cfg) ∧
    ((∀ p ∈ pool, effMaxFailures cfg ≤ p.failCount.getD 0) →
        (getNextProxy cfg pool proxyIndex r now).1 = none) := by
  constructor
  · intro j hj
    have hmem := getNextProxy_mem_avail cfg pool proxyIndex r now j hj
    unfold availableProxyIdx at hmem
    rw [List.mem_filter, List.mem_range] at hmem
    obtain ⟨hjlt, helig⟩ := hmem
    refine ⟨pool.getD j default, ?_, (proxyEligible_iff cfg _).mp helig⟩
    rw [List.getD_eq_getElem pool default hjlt, List.get?_eq_getElem?]
    exact List.getElem?_eq_getElem hjlt
  · intro hall
    unfold getNextProxy
    by_cases h1 : (!cfg.proxyEnabled || pool.length == 0) = true
    · rw [if_pos h1]
    · rw [if_neg h1]
      have hempty : (availableProxyIdx cfg pool).length == 0 := by
        have hnil : availableProxyIdx cfg pool = [] := by
          unfold availableProxyIdx
          rw [List.filter_eq_nil_iff]
          intro i hi
          rw [List.mem_range] at hi
          intro helig
          have hbound := (proxyEligible_iff cfg _).mp helig
          have hin : pool.getD i default ∈ pool := by
            rw [List.getD_eq_getElem pool default hi]
            exact List.getElem_mem hi
          exact absurd (hall _ hin) (by omega)
        simp [hnil]
      rw [if_pos hempty]

/-- C7 counterexample: with a configured maxFailures of 0 the code falls
back to the default threshold 3, so a proxy with failCount 2 — at or above
the configured maxFailures — is still returned instead of none, refuting
exclusion at the configured value. -/
theorem c7_counterexample :
    cfgMaxFailZero.maxFailures = some 0 ∧
    proxyA.failCount = some 2 ∧
    (getNextProxy cfgMaxFailZero [proxyA] 0 0 7).1 = some 0 := by decide

/-- C7 witness: the amended theorem applied to a below-threshold pool
(a proxy comes back and is below the effective threshold) and to an
exhausted pool (none comes back). -/
theorem c7_witness :
    (∃ p, [proxyA].get? 0 = some p ∧ p.failCount.getD 0 < effMaxFailures cfgProxyOn) ∧
    (getNextProxy cfgProxyOn [proxyExhausted] 1 2 9).1 = none :=
  ⟨(c7_amended cfgProxyOn [proxyA] 0 0 7).1 0 (by decide),
   (c7_amended cfgProxyOn [proxyExhausted] 1 2 9).2 (by decide)⟩

/-- C8: restoring a session's serialized state into a fresh store
reproduces an equivalent session — same cookies, fingerprint (hence
fingerprint name), user agent, timestamps and counters — and
restoreSessionState is idempotent on every store: restoring the same state
twice equals restoring it once. -/
theorem c8_roundtrip (cfg : OrchestratorConfig) (store : SessionStore) (now : Nat)
    (uuid : String) (fp : Fingerprint) (s : Session)
    (hen : cfg.sessionEnabled = true)
    (hget : storeGet store s.id = some s)
    (hexp : sessionExpired cfg.sessionMaxAge now s = false) :
    (∃ s', storeGet (restoreSessionState []
          (getSessionState cfg store now uuid fp (some s.id)).1) s.id = some s' ∧
       s'.cookies = s.cookies ∧ s'.fingerprint = s.fingerprint ∧
       s'.userAgent = s.userAgent ∧ s'.createdAt = s.createdAt ∧
       s'.lastUsed = s.lastUsed ∧ s'.requestCount = s.requestCount ∧
       s'.errorCount = s.errorCount) ∧
    (∀ (σ : SessionStore) (st : SessionState),
       restoreSessionState (restoreSessionState σ st) st = restoreSessionState σ st) := by
  constructor
  · have hresolve : getSession cfg store now uuid fp (some s.id) false = (s, store) := by
      unfold getSession
      rw [if_neg (by rw [hen]; simp)]
      dsimp only
      rw [hget]
      dsimp only
      rw [if_neg (by rw [hexp]; simp)]
    have hstate : (getSessionState cfg store now uuid fp (some s.id)).1 =
        serializeSession s := by
      unfold getSessionState
      rw [hresolve]
    rw [hstate]
    have hres : restoreSessionState [] (serializeSession s) =
        [{ id := s.id, cookies := s.cookies, userAgent := s.userAgent,
           fingerprint := s.fingerprint, proxy := none, createdAt := s.createdAt,
           lastUsed := s.lastUsed, requestCount := s.requestCount,
           errorCount := s.errorCount }] := rfl
    rw [hres]
    set restored : Session :=
      { id := s.id
        cookies := s.cookies
        userAgent := s.userAgent
        fingerprint := s.fingerprint
        proxy := none
        createdAt := s.createdAt
        lastUsed := s.lastUsed
        requestCount := s.requestCount
        errorCount := s.errorCount } with hrestored
    have hfind : storeGet [restored] s.id = some restored := by
      simp [storeGet, hrestored]
    exact ⟨restored, hfind, rfl, rfl, rfl, rfl, rfl, rfl, rfl⟩
  · exact restoreSessionState_idem

/-- C8 witness: the round-trip theorem applied to a concrete store holding
a session with cookie foo=bar. -/
theorem c8_witness :
    (∃ s', storeGet (restoreSessionState []
          (getSessionState cfgDefault [sessionA] 20 "uuid-8" fpFirefox
            (some sessionA.id)).1) sessionA.id = some s' ∧
       s'.cookies = sessionA.cookies ∧ s'.fingerprint = sessionA.fingerprint ∧
       s'.userAgent = sessionA.userAgent ∧ s'.createdAt = sessionA.createdAt ∧
       s'.lastUsed = sessionA.lastUsed ∧ s'.requestCount = sessionA.requestCount ∧
       s'.errorCount = sessionA.errorCount) ∧
    (∀ (σ : SessionStore) (st : SessionState),
       restoreSessionState (restoreSessionState σ st) st = restoreSessionState σ st) :=
  c8_roundtrip cfgDefault [sessionA] 20 "uuid-8" fpFirefox sessionA rfl (by decide) (by decide)

/-- C9: getScriptData returns the JSON-parse of the located script
element's content (its text, or its innerHTML when the text is empty), and
returns none — never throwing, the function is total — when the element
with the resolved id is missing, when its tag name is not script, or, since
parseJson models `JSON.parse` returning none on failure, when the content
does not parse. -/
theorem c9_script_data {α : Type} (getById : String → Option DomNode)
    (parseJson : String → Option α) (scriptId : Option String) :
    (getById (resolveScriptId scriptId) = none →
       getScriptData getById parseJson scriptId = none) ∧
    (∀ el, getById (resolveScriptId scriptId) = some el →
       ((jsToLower el.tagName ≠ "script" →
           getScriptData getById parseJson scriptId = none) ∧
        (jsToLower el.tagName = "script" →
           getScriptData getById parseJson scriptId =
             parseJson (if el.text == "" then el.innerHTML else el.text)))) := by
  constructor
  · intro h
    unfold getScriptData
    dsimp only
    rw [h]
  · intro el hel
    constructor
    · intro htag
      unfold getScriptData
      dsimp only
      rw [hel]
      dsimp only
      rw [if_pos (by simp [htag])]
    · intro htag
      unfold getScriptData
      dsimp only
      rw [hel]
      dsimp only
      rw [if_neg (by simp [htag])]

/-- C9 witness: the theorem applied to a document holding an upper-cased
SCRIPT node (content extracted and parsed) and to one holding a div with
the same id (soft none). -/
theorem c9_witness :
    getScriptData domWithScript jsonParserExample none =
      jsonParserExample (if scriptNode.text == "" then scriptNode.innerHTML
                         else scriptNode.text) ∧
    getScriptData domWithDiv jsonParserExample none = none :=
  ⟨((c9_script_data domWithScript jsonParserExample none).2 scriptNode rfl).2 (by decide),
   ((c9_script_data domWithDiv jsonParserExample none).2 divNode rfl).1 (by decide)⟩

/-- C10: whenever the decoder parses raw output successfully and the
scanned header block contains no content-type key, the returned response
carries content-type application/json, is classified as JSON by
isJsonResponse regardless of its body, and fails the content-type branch of
the HTML check. -/
theorem c10_content_type_default (output originalUrl : String) (responseTime : Nat)
    (r : HttpResponse)
    (hok : parseResponse output originalUrl responseTime = .ok r)
    (hct : recordGet (parsedHeaders output) "content-type" = none) :
    recordGet r.headers "content-type" = some "application/json" ∧
    isJsonResponse r = true ∧
    strContains ((recordGet r.headers "content-type").getD "") "text/html" = false := by
  unfold parseResponse at hok
  unfold parsedHeaders at hct
  dsimp only at hok hct
  cases hfs : findStatusLine (jsSplitOn output "\n") with
  | none =>
    rw [hfs] at hok
    exact absurd hok (by simp)
  | some found =>
    rw [hfs] at hok hct
    dsimp only at hok hct
    rw [hct] at hok
    rw [if_pos (by simp)] at hok
    injection hok with hr
    subst hr
    have hmain : recordGet
        (recordSet (parseHeaderLoop found.2 initHeaderScan).1 "content-type" "application/json")
        "content-type" = some "application/json" :=
      recordGet_recordSet_self _ _ _
    refine ⟨hmain, ?_, ?_⟩
    · unfold isJsonResponse
      dsimp only
      rw [hmain]
      simp [strContains_iff]
    · rw [hmain]
      decide

/-- C10 witness: the theorem applied to a concrete headerless-content-type
raw output. -/
theorem c10_witness :
    recordGet decodedExample.headers "content-type" = some "application/json" ∧
    isJsonResponse decodedExample = true ∧
    strContains ((recordGet decodedExample.headers "content-type").getD "")
      "text/html" = false :=
  c10_content_type_default rawOutputExample "orig" 5 decodedExample rfl (by decide)

end NodeCurlScraper
